import Mathlib

/-!
Verification of the `gaya-daily-reports` reporting scripts.

This file shallowly embeds the data model and the pure fragments of the four
Python scripts (`daily_report.py`, `email_digest.py`,
`scripts/daily_deliveries_report.py`, `scripts/send_containers_report.py`)
and proves properties of the embedded definitions.  HTTP calls are modelled
by passing the outcome of each request (status, decoded body, or raised
exception) as an explicit argument; `float` values are modelled as exact
fractions (numerator/denominator), which is the idealisation of IEEE doubles
on which the arithmetic claims are stated.
-/

namespace Gaya

/-- Exact model of a Python `float` value as a fraction.  Every value built by
the scripts has a positive denominator; addition does not normalise, which
keeps all operations kernel-computable. -/
structure PyFloat where
  num : Int
  den : Nat
deriving DecidableEq

/-- Addition of fractions, as used for the running `sum(...)` totals. -/
def pfAdd (a b : PyFloat) : PyFloat :=
  ⟨a.num * b.den + b.num * a.den, a.den * b.den⟩

theorem pfAdd_assoc (a b c : PyFloat) : pfAdd (pfAdd a b) c = pfAdd a (pfAdd b c) := by
  simp only [pfAdd, PyFloat.mk.injEq]
  refine ⟨?_, ?_⟩
  · push_cast
    ring
  · ring

theorem pfAdd_comm (a b : PyFloat) : pfAdd a b = pfAdd b a := by
  simp only [pfAdd, PyFloat.mk.injEq]
  exact ⟨by ring, by ring⟩

theorem pfZero_add (a : PyFloat) : pfAdd ⟨0, 1⟩ a = a := by
  simp only [pfAdd]
  push_cast
  simp

theorem pfAdd_zero (a : PyFloat) : pfAdd a ⟨0, 1⟩ = a := by
  simp only [pfAdd]
  push_cast
  simp

instance : Add PyFloat := ⟨pfAdd⟩

instance : Zero PyFloat := ⟨⟨0, 1⟩⟩

instance : AddCommMonoid PyFloat where
  add_assoc := pfAdd_assoc
  zero_add := pfZero_add
  add_zero := pfAdd_zero
  add_comm := pfAdd_comm
  nsmul := nsmulRec
  nsmul_zero _ := rfl
  nsmul_succ _ _ := rfl

/-- Python `sum(...)`: a left fold of `+` starting from `0`. -/
def pySum (l : List PyFloat) : PyFloat := l.foldl (· + ·) 0

/-- Model of the Python comparison `x > 0` for a fraction with positive
denominator. -/
def pyPos (q : PyFloat) : Bool := 0 < q.num

/-- Model of Python `int(x)` on a float: truncation toward zero. -/
def pyInt (q : PyFloat) : Int :=
  if q.num < 0 then -((q.num.natAbs / q.den : Nat) : Int)
  else ((q.num.natAbs / q.den : Nat) : Int)

/-- Decimal digits of `n`, most significant first; `fuel` bounds recursion. -/
def natDigitsGo : Nat → Nat → List Char
  | 0, _ => []
  | _ + 1, 0 => []
  | fuel + 1, n => natDigitsGo fuel (n / 10) ++ [Char.ofNat (48 + n % 10)]

/-- Model of Python `str(n)` for a non-negative integer. -/
def natToStr (n : Nat) : String :=
  if n = 0 then "0" else ⟨natDigitsGo (n + 1) n⟩

/-- Model of Python `str(i)` for an integer. -/
def intToStr (i : Int) : String :=
  if i < 0 then "-" ++ natToStr i.natAbs else natToStr i.natAbs

/-- Model of the Python slice `s[:n]` on a string (first `n` code points). -/
def pyTakeStr (n : Nat) (s : String) : String := ⟨s.data.take n⟩

/-- Model of Python `sep.join(parts)`. -/
def pyJoin (sep : String) : List String → String
  | [] => ""
  | [x] => x
  | x :: xs => x ++ sep ++ pyJoin sep xs

/-- Model of the Python expression `a or b` where `a` is an optional string
(`none` standing for `None`): `None` and the empty string are falsy. -/
def pyStrOr (a : Option String) (b : String) : String :=
  match a with
  | none => b
  | some t => if t = "" then b else t

/-- ASCII lowercasing of one character, the fragment of `str.lower` relevant
to the keyword lists of the scripts (Hebrew letters have no case). -/
def pyCharLower (c : Char) : Char :=
  if 'A' ≤ c ∧ c ≤ 'Z' then Char.ofNat (c.toNat + 32) else c

/-- Model of Python `s.lower()`. -/
def pyLower (s : String) : String := ⟨s.data.map pyCharLower⟩

/-- Whether `needle` occurs as a contiguous run inside `hay`. -/
def hasSub (needle : List Char) : List Char → Bool
  | [] => needle.isEmpty
  | c :: rest => needle.isPrefixOf (c :: rest) || hasSub needle rest

/-- Model of the Python membership test `needle in hay` on strings. -/
def strContains (hay needle : String) : Bool := hasSub needle.data hay.data

/-- Numeric value of a digit list read in base 10. -/
def digitsVal (cs : List Char) : Nat :=
  cs.foldl (fun a c => a * 10 + (c.toNat - 48)) 0

/-- Model of Python `float(s)` on the plain decimal literals produced by the
Monday.com numeric column (`"3"`, `"2.5"`, optionally signed); `none` models
the `ValueError` raised on a non-numeric string.  Exponent, infinity and
whitespace forms never occur in this data and are treated as non-numeric. -/
def pyFloat? (s : String) : Option PyFloat :=
  let cs := s.data
  let signBody : Bool × List Char :=
    match cs with
    | '-' :: rest => (true, rest)
    | '+' :: rest => (false, rest)
    | _ => (false, cs)
  let neg := signBody.1
  let body := signBody.2
  match body.span Char.isDigit with
  | (intPart, []) =>
      if intPart.isEmpty then none
      else some ⟨(if neg then -1 else 1) * digitsVal intPart, 1⟩
  | (intPart, '.' :: fracPart) =>
      if fracPart.all Char.isDigit ∧ ¬(intPart.isEmpty ∧ fracPart.isEmpty) then
        some ⟨(if neg then -1 else 1) *
                (digitsVal intPart * (10 ^ fracPart.length) + digitsVal fracPart),
              10 ^ fracPart.length⟩
      else none
  | _ => none

/-! ### Monday.com data model (`scripts/daily_deliveries_report.py`) -/

/-- Decoded `value` field of a Monday.com column, covering the shapes the
script inspects after `json.loads`:
* `absent`: the JSON value is `null` (Python `None`, falsy);
* `emptyObj`: the value is the literal two-character empty-object string,
  excluded by the guard in the script and decoding to an object with no keys;
* `malformed`: `json.loads` raises `JSONDecodeError`;
* `obj index date`: a decoded object, with its optional `index` field (status
  columns) and optional `date` field (date columns). -/
inductive MValue
  | absent
  | emptyObj
  | malformed
  | obj (index : Option Int) (date : Option String)
deriving DecidableEq

/-- One entry of the `column_values` list of a Monday.com item: the `text` field
(`none` models a JSON `null` text) and the decoded `value` field. -/
structure MCol where
  text : Option String
  value : MValue
deriving DecidableEq

/-- A Monday.com item as consumed by the script.  `columns` models the dict
`{cv["id"]: cv}` built from `column_values`; column ids are unique per item,
so association-list lookup coincides with the Python dict lookup. -/
structure MItem where
  id : String
  name : String
  columns : List (String × MCol)
deriving DecidableEq

/-- Column ids from the `COLUMNS` table of the script. -/
def COLUMNS_date : String := "date4"

def COLUMNS_driver : String := "color_mkz4z0q4"

def COLUMNS_customer : String := "text_mkz43a4j"

def COLUMNS_city : String := "text_mkz4zrrm"

def COLUMNS_sku : String := "text_mkz4pcnj"

def COLUMNS_description : String := "text_mkz4c904"

def COLUMNS_pallets : String := "numeric_mkz4s8sc"

def COLUMNS_order : String := "text_mkz4n5dn"

def COLUMNS_broadcast : String := "color_mkz4m0mx"

/-- The `DRIVER_LABELS` table (status index → driver name); index 5 is
deliberately missing, exactly as in the source. -/
def DRIVER_LABELS : List (Int × String) :=
  [(0, "שי"), (1, "אורי"), (2, "נאדר"), (3, "שפע תובלה"), (4, "אורי נגלה 2"),
   (6, "הפצה ביג לוג"), (7, "שי נגלה 2"), (8, "איסוף עצמי"), (9, "סוכן"),
   (10, "ישראל"), (11, "BL")]

/-- Model of `DRIVER_LABELS.get(idx, d)` without its default. -/
def driverLabel? (idx : Int) : Option String := DRIVER_LABELS.lookup idx

/-- The literal fallback label for an unassigned driver. -/
def unassignedLabel : String := "לא משויך"

/-- Model of `columns.get(cid, ..).get("text", dflt)`: a missing column yields the
string default `dflt` via the empty-dict fallback; a present column yields
its stored text, which may be `None`. -/
def colText (c : Option MCol) (dflt : String) : Option String :=
  match c with
  | none => some dflt
  | some col => col.text

/-- The `text` of a column collapsed to a plain string.  The script stores a
`None` text unchanged, but every downstream read of these fields is
truthiness-guarded, under which `None` and the empty string behave
identically, so both are collapsed to `""`. -/
def colTextStr (c : Option MCol) : String := (colText c "").getD ""

/-- Model of `columns.get(cid, ..).get("value", ..)` where the empty-dict fallback
supplies the empty-object literal. -/
def colValue (c : Option MCol) : MValue :=
  match c with
  | none => MValue.emptyObj
  | some col => col.value

/-- The driver-resolution block of `parse_delivery_item`: start from
`driver_text or "לא משויך"`, then, when the JSON value of the column is truthy,
not the empty-object literal, parses, and carries an `index`, replace it by
`DRIVER_LABELS.get(idx, driver_text or f"נהג {idx}")`. -/
def parseDriver (c : Option MCol) : String :=
  let driver_text := colText c ""
  let base := pyStrOr driver_text unassignedLabel
  match colValue c with
  | MValue.absent => base
  | MValue.emptyObj => base
  | MValue.malformed => base
  | MValue.obj none _ => base
  | MValue.obj (some idx) _ =>
      match driverLabel? idx with
      | some lbl => lbl
      | none => pyStrOr driver_text ("נהג " ++ intToStr idx)

/-- The pallets block of `parse_delivery_item`: `pallets_col.get("text", "0")`
(the default firing only for a missing column), then
`float(pallets_text) if pallets_text else 0` with `ValueError`/`TypeError`
mapped to `0`. -/
def parsePallets (c : Option MCol) : PyFloat :=
  let pallets_text : Option String :=
    match c with
    | none => some "0"
    | some col => col.text
  match pallets_text with
  | none => 0
  | some t => if t = "" then 0 else (pyFloat? t).getD 0

/-- The normalized row produced by `parse_delivery_item`. -/
structure Delivery where
  id : String
  name : String
  driver : String
  customer : String
  city : String
  sku : String
  description : String
  pallets : PyFloat
  ordNo : String
deriving DecidableEq

/-- The normalizer `parse_delivery_item`: one Monday.com item to one delivery row.
`ordNo` holds the customer-order text (`"order"` key of the Python dict). -/
def parse_delivery_item (item : MItem) : Delivery :=
  let cols := item.columns
  { id := item.id
    name := item.name
    driver := parseDriver (cols.lookup COLUMNS_driver)
    customer := pyStrOr (colText (cols.lookup COLUMNS_customer) "") item.name
    city := colTextStr (cols.lookup COLUMNS_city)
    sku := colTextStr (cols.lookup COLUMNS_sku)
    description := colTextStr (cols.lookup COLUMNS_description)
    pallets := parsePallets (cols.lookup COLUMNS_pallets)
    ordNo := colTextStr (cols.lookup COLUMNS_order) }

/-! ### Grouping (`group_by_driver`, `group_by_driver_and_customer`) -/

/-- Ordering of key/value pairs by key, the comparison performed by the Python call
`sorted(grouped.items())` (keys of a dict are distinct, so the tuple
comparison never reaches the values). -/
def keyLE {β : Type} (a b : String × β) : Prop := a.1 ≤ b.1

instance {β : Type} : IsTotal (String × β) keyLE := ⟨fun a b => le_total a.1 b.1⟩

instance {β : Type} : IsTrans (String × β) keyLE := ⟨fun _ _ _ h h' => le_trans h h'⟩

instance {β : Type} : DecidableRel (@keyLE β) :=
  fun a b => inferInstanceAs (Decidable (a.1 ≤ b.1))

/-- One loop iteration of the groupers: append `d` to the member list of key
`key` of the insertion-ordered dict `groups`, creating the key at the end if
new.  Mirrors `grouped[driver].append(d)` with the `if driver not in grouped`
guard. -/
def dictInsertRow {β : Type} (groups : List (String × List β)) (key : String) (d : β) :
    List (String × List β) :=
  match groups with
  | [] => [(key, [d])]
  | (k, rows) :: rest =>
      if k = key then (k, rows ++ [d]) :: rest
      else (k, rows) :: dictInsertRow rest key d

/-- The grouper `group_by_driver`: build the insertion-ordered dict, then return it with
keys sorted (`dict(sorted(grouped.items()))`).  the Python sort is stable and
the keys are distinct, so the stable `insertionSort` computes the same list.
The key is `d.get("driver", ..)`; parsed rows always carry a driver, so the
default never fires. -/
def group_by_driver (deliveries : List Delivery) : List (String × List Delivery) :=
  let grouped := deliveries.foldl (fun g d => dictInsertRow g d.driver d) []
  List.insertionSort keyLE grouped

/-- One loop iteration of `group_by_driver_and_customer`. -/
def dictInsertNested (groups : List (String × List (String × List Delivery)))
    (dk ck : String) (d : Delivery) : List (String × List (String × List Delivery)) :=
  match groups with
  | [] => [(dk, [(ck, [d])])]
  | (k, inner) :: rest =>
      if k = dk then (k, dictInsertRow inner ck d) :: rest
      else (k, inner) :: dictInsertNested rest dk ck d

/-- The grouper `group_by_driver_and_customer`: nested dict driver → customer → rows,
outer keys sorted, then customer keys sorted within each driver. -/
def group_by_driver_and_customer (deliveries : List Delivery) :
    List (String × List (String × List Delivery)) :=
  let grouped := deliveries.foldl (fun g d => dictInsertNested g d.driver d.customer d) []
  (List.insertionSort keyLE grouped).map
    (fun p => (p.1, List.insertionSort keyLE p.2))

/-! ### WhatsApp text renderer (`format_whatsapp_message`) -/

/-- Model of `datetime.strptime(target_date, "%Y-%m-%d").strftime("%d.%m.%Y")`
on a well-formed `YYYY-MM-DD` string: character reordering. -/
def reformatDate (target_date : String) : String :=
  let cs := target_date.data
  ⟨(cs.drop 8).take 2 ++ '.' :: ((cs.drop 5).take 2 ++ '.' :: cs.take 4)⟩

/-- The set `set(item.get("customer", "") for item in items if item.get("customer"))`,
as the list of its elements in first-seen order (only membership and size are
read from it). -/
def customersSet (items : List Delivery) : List String :=
  items.foldl (fun s it => if it.customer ≠ "" ∧ it.customer ∉ s then s ++ [it.customer] else s) []

/-- One iteration of the customer-listing loop of `format_whatsapp_message`:
the accumulator carries the rendered bullet lines and the `shown_customers`
set (as a list in insertion order). -/
def showCustomersStep (items : List Delivery) (acc : List String × List String)
    (it : Delivery) : List String × List String :=
  let lines := acc.1
  let shown := acc.2
  let customer := it.customer
  if customer ≠ "" ∧ customer ∉ shown ∧ shown.length < 5 then
    let city := it.city
    let city_str := if city ≠ "" then " - " ++ city else ""
    let cust_pallets := pySum ((items.filter (fun i => i.customer = customer)).map (·.pallets))
    let pallet_str :=
      if pyPos cust_pallets then " (" ++ intToStr (pyInt cust_pallets) ++ " מש\x27)" else ""
    (lines ++ ["  • " ++ customer ++ city_str ++ pallet_str], shown ++ [customer])
  else acc

/-- The inner customer-listing loop of `format_whatsapp_message`: at most 5
distinct non-empty customers are rendered, each with its city and pallet
count.  Returns the rendered bullet lines. -/
def showCustomers (items : List Delivery) : List String :=
  (items.foldl (showCustomersStep items) ([], [])).1

/-- The per-driver block of lines of `format_whatsapp_message`: the driver
header, the listed customers, the elision line once more than 5 distinct
customers exist, and the trailing blank line. -/
def driverBlock (driver : String) (items : List Delivery) : List String :=
  let driver_pallets := pySum (items.map (·.pallets))
  let driver_rows := items.length
  let customers := customersSet items
  let pallets_str :=
    if pyPos driver_pallets then ", " ++ intToStr (pyInt driver_pallets) ++ " משטחים" else ""
  let header := "📍 " ++ driver ++ " (" ++ natToStr customers.length ++ " לקוחות, " ++
    natToStr driver_rows ++ " שורות" ++ pallets_str ++ "):"
  let more :=
    if customers.length > 5 then ["  • ... ועוד " ++ natToStr (customers.length - 5) ++ " לקוחות"]
    else []
  [header] ++ showCustomers items ++ more ++ [""]

/-- The running `total_rows` accumulated over the grouped dict in
`format_whatsapp_message`. -/
def report_total_rows (deliveries : List Delivery) : Nat :=
  (group_by_driver deliveries).foldl (fun acc p => acc + p.2.length) 0

/-- The running `total_pallets` accumulated over the grouped dict in
`format_whatsapp_message`. -/
def report_total_pallets (deliveries : List Delivery) : PyFloat :=
  (group_by_driver deliveries).foldl (fun acc p => acc + pySum (p.2.map (·.pallets))) 0

/-- The renderer `format_whatsapp_message`: the plain-text WhatsApp digest. -/
def format_whatsapp_message (deliveries : List Delivery) (target_date : String) : String :=
  let date_formatted := reformatDate target_date
  if deliveries.isEmpty then
    "🚚 הפצות היום - " ++ date_formatted ++ "\n\n✅ אין הפצות מתוכננות להיום."
  else
    let grouped := group_by_driver deliveries
    let blocks := (grouped.map (fun p => driverBlock p.1 p.2)).flatten
    let total_rows := report_total_rows deliveries
    let total_pallets := report_total_pallets deliveries
    let pallets_total :=
      if pyPos total_pallets then " | " ++ intToStr (pyInt total_pallets) ++ " משטחים" else ""
    let lines := ["🚚 הפצות היום - " ++ date_formatted, ""] ++ blocks ++
      ["━━━━━━━━━━━━━━━━━━━━━━━━",
       "סה\"כ: " ++ natToStr total_rows ++ " שורות | " ++ natToStr grouped.length ++
         " נהגים" ++ pallets_total]
    pyJoin "\n" lines

/-! ### Email digest (`email_digest.py`) -/

/-- One fetched email, carrying exactly the fields `categorize_emails` and
`create_fallback_summary` extract: `email.get("subject", "")`,
`email.get("bodyPreview", "")`,
`email.get("from", ..).get("emailAddress", ..).get("address", "")`,
`email.get("from", ..).get("emailAddress", ..).get("name", "")`, and
`email.get("importance", "normal")` (the `.get` defaults are applied when the
record is built). -/
structure Email where
  subject : String
  bodyPreview : String
  fromAddress : String
  fromName : String
  importance : String
deriving DecidableEq

def finance_keywords : List String :=
  ["חשבונית", "תשלום", "העברה", "invoice", "payment", "bank", "בנק"]

def order_keywords : List String :=
  ["הזמנה", "משלוח", "po", "order", "shipment", "delivery", "מכולה"]

def urgent_keywords : List String :=
  ["דחוף", "urgent", "asap", "חשוב", "important", "מיידי"]

/-- The five buckets of `categorize_emails`, in the declaration order of the dict. -/
structure Categories where
  finance : List Email
  orders : List Email
  internal : List Email
  urgent : List Email
  other : List Email
deriving DecidableEq

/-- The category names. -/
inductive Category
  | urgent
  | finance
  | orders
  | internal
  | other
deriving DecidableEq

/-- The combined text `f"{subject} {body_preview}"` after lowercasing. -/
def combinedText (e : Email) : String :=
  pyLower e.subject ++ " " ++ pyLower e.bodyPreview

/-- The urgency test: `importance == "high"` or any urgent keyword occurs in
the combined subject and body preview. -/
def isUrgentEmail (e : Email) : Bool :=
  e.importance = "high" || urgent_keywords.any (fun kw => strContains (combinedText e) kw)

/-- The if/elif chain of `categorize_emails` deciding the bucket of one email. -/
def categoryOf (e : Email) : Category :=
  let combined_text := combinedText e
  let from_email := pyLower e.fromAddress
  if isUrgentEmail e then Category.urgent
  else if finance_keywords.any (fun kw => strContains combined_text kw) then Category.finance
  else if order_keywords.any (fun kw => strContains combined_text kw) then Category.orders
  else if strContains from_email "gaya-foods" || strContains from_email "gaya" then
    Category.internal
  else Category.other

/-- Append one email to its bucket. -/
def addToCategory (c : Categories) (e : Email) : Categories :=
  match categoryOf e with
  | Category.urgent => { c with urgent := c.urgent ++ [e] }
  | Category.finance => { c with finance := c.finance ++ [e] }
  | Category.orders => { c with orders := c.orders ++ [e] }
  | Category.internal => { c with internal := c.internal ++ [e] }
  | Category.other => { c with other := c.other ++ [e] }

/-- The categorizer `categorize_emails`: distribute the fetched emails over the five
buckets, preserving arrival order within each bucket. -/
def categorize_emails (emails : List Email) : Categories :=
  emails.foldl addToCategory ⟨[], [], [], [], []⟩

/-- The renderer `create_fallback_summary`: the deterministic digest used when the AI
summarization call fails.  `today` stands for
`datetime.now().strftime("%d.%m")`, passed explicitly. -/
def create_fallback_summary (today : String) (emails : List Email)
    (categories : Categories) : String :=
  let lines := ["☀️ בוקר טוב! | " ++ today]
  let lines := lines ++
    ["📬 " ++ natToStr emails.length ++ " מיילים | 🔴 " ++
      natToStr categories.urgent.length ++ " דחופים"]
  let lines := lines ++
    (if categories.urgent ≠ [] then
      ["\n⚡ דחוף:"] ++ (categories.urgent.take 2).map
        (fun e => "• " ++ pyTakeStr 15 e.fromName ++ ": " ++ pyTakeStr 25 e.subject)
    else [])
  let lines := lines ++
    (if categories.finance ≠ [] then
      ["\n💰 כספים (" ++ natToStr categories.finance.length ++ ")"]
    else [])
  let lines := lines ++
    (if categories.orders ≠ [] then
      ["📦 הזמנות (" ++ natToStr categories.orders.length ++ ")"]
    else [])
  pyTakeStr 500 (pyJoin "\n" lines)

/-! ### Priority ERP report (`daily_report.py`) -/

/-- One line of the `TRANSORDER_D_SUBFORM` expansion; `TQUANT` is `none` when
the key is absent (the `.get("TQUANT", 0)` default then fires). -/
structure PLine where
  TQUANT : Option PyFloat
deriving DecidableEq

/-- One raw ERP document; `none` fields model absent JSON keys, covered by
the `.get(.., default)` reads. -/
structure PDoc where
  DOCNO : Option String
  CDES : Option String
  CURDATE : Option String
  QPRICE : Option PyFloat
  STATDES : Option String
  TRANSORDER_D_SUBFORM : Option (List PLine)
deriving DecidableEq

/-- One processed document row of `process_documents`. -/
structure PRow where
  DOCNO : String
  CDES : String
  CURDATE : String
  QPRICE : PyFloat
  STATDES : String
  QTY : Int
  PALLETS : Nat
deriving DecidableEq

/-- The normalizer `process_documents`: raw documents to structured rows with pallet counts
and truncated dates. -/
def process_documents (raw_docs : List PDoc) : List PRow :=
  raw_docs.map (fun doc =>
    let lines := doc.TRANSORDER_D_SUBFORM.getD []
    let num_pallets := lines.length
    let total_qty := pySum (lines.map (fun l => l.TQUANT.getD 0))
    { DOCNO := doc.DOCNO.getD ""
      CDES := doc.CDES.getD ""
      CURDATE := pyTakeStr 10 (doc.CURDATE.getD "")
      QPRICE := doc.QPRICE.getD 0
      STATDES := doc.STATDES.getD ""
      QTY := pyInt total_qty
      PALLETS := num_pallets })

/-- Decoded body of the `DOCUMENTS_D` response: either the body is not valid
JSON (`response.json()` raises), or it is JSON whose optional `value` key
holds the record array. -/
inductive PBody
  | notJson
  | json (value : Option (List PDoc))
deriving DecidableEq

/-- Outcome of one `requests.get` call: a raised request exception
(connectivity error or timeout), or a response with its status and body. -/
inductive FetchOutcome
  | reqError
  | resp (status : Nat) (body : PBody)
deriving DecidableEq

/-- The Python exceptions `query_priority` can let escape. -/
inductive PyExn
  | requestExn
  | httpStatusExn (code : Nat)
  | jsonExn
deriving DecidableEq

/-- Model of `response.raise_for_status()`: raises `HTTPError` for a 4xx or 5xx
status. -/
def raise_for_status (status : Nat) : Except PyExn Unit :=
  if 400 ≤ status then Except.error (PyExn.httpStatusExn status) else Except.ok ()

/-- The fetcher `query_priority` of `daily_report.py`.  The function has no exception
handler: a request exception, a non-2xx status, or a malformed JSON body all
propagate to the caller as an exception. -/
def query_priority (o : FetchOutcome) : Except PyExn (List PDoc) :=
  match o with
  | FetchOutcome.reqError => Except.error PyExn.requestExn
  | FetchOutcome.resp status body =>
      match raise_for_status status with
      | Except.error e => Except.error e
      | Except.ok _ =>
          match body with
          | PBody.notJson => Except.error PyExn.jsonExn
          | PBody.json none => Except.ok []
          | PBody.json (some v) => Except.ok v

/-- A failing fetch: connectivity error, error status, or malformed body. -/
def fetchFailed : FetchOutcome → Bool
  | FetchOutcome.reqError => true
  | FetchOutcome.resp status body =>
      decide (400 ≤ status) ||
        (match body with
         | PBody.notJson => true
         | PBody.json _ => false)

/-! ### Monday.com deliveries query (`query_monday_deliveries`) -/

/-- Decoded body of a Monday.com GraphQL response, covering the shapes the
script distinguishes: not JSON, JSON carrying an `errors` key, JSON whose
nested navigation to the item list raises (caught by the blanket handler),
or the item list itself. -/
inductive MondayBody
  | notJson
  | withErrors
  | malformedShape
  | items (its : List MItem)
deriving DecidableEq

/-- Outcome of one Monday.com POST. -/
inductive MondayOutcome
  | reqError
  | resp (status : Nat) (body : MondayBody)
deriving DecidableEq

/-- The local date filter of the fallback query: read the JSON `value` of the date column; on a decodable object compare its `date` field with `target_date`;
on a `JSONDecodeError` fall back to a substring test against the text of the column (where Python renders a `None` text as the string `str(None)`). -/
def itemMatchesDate (item : MItem) (target_date : String) : Bool :=
  match item.columns.lookup COLUMNS_date with
  | none => false
  | some col =>
      match col.value with
      | MValue.absent => false
      | MValue.emptyObj => "" = target_date
      | MValue.malformed =>
          (match col.text with
           | none => strContains "None" target_date
           | some t => strContains t target_date)
      | MValue.obj _ d => d.getD "" = target_date

/-- The fallback fetcher `query_monday_deliveries_fallback`: fetch every item of the board and
filter by the date column locally; any failure is caught and yields `[]`.
A response with an `errors` key is not checked here: the navigation defaults
then produce an empty item list. -/
def query_monday_deliveries_fallback (target_date : String) (o : MondayOutcome) :
    List Delivery :=
  match o with
  | MondayOutcome.reqError => []
  | MondayOutcome.resp status body =>
      if 400 ≤ status then []
      else
        match body with
        | MondayBody.notJson => []
        | MondayBody.withErrors => []
        | MondayBody.malformedShape => []
        | MondayBody.items its =>
            (its.filter (fun it => itemMatchesDate it target_date)).map parse_delivery_item

/-- The fetcher `query_monday_deliveries`: the main `items_page_by_column_values` query.
A request exception, an error status (`raise_for_status` raises an
`HTTPError`, a `RequestException`), an undecodable body (`JSONDecodeError`,
also a `RequestException` in requests ≥ 2.27), and a reported `errors` key
all divert to the fallback query; any other exception yields `[]`. -/
def query_monday_deliveries (tokenSet : Bool) (target_date : String)
    (o fb : MondayOutcome) : List Delivery :=
  if !tokenSet then []
  else
    match o with
    | MondayOutcome.reqError => query_monday_deliveries_fallback target_date fb
    | MondayOutcome.resp status body =>
        if 400 ≤ status then query_monday_deliveries_fallback target_date fb
        else
          match body with
          | MondayBody.notJson => query_monday_deliveries_fallback target_date fb
          | MondayBody.withErrors => query_monday_deliveries_fallback target_date fb
          | MondayBody.malformedShape => []
          | MondayBody.items its => its.map parse_delivery_item

/-- A failing Monday.com fetch: exception, error status, or a body that is
not a clean item list. -/
def mondayFetchFailed : MondayOutcome → Bool
  | MondayOutcome.reqError => true
  | MondayOutcome.resp status body =>
      decide (400 ≤ status) ||
        (match body with
         | MondayBody.items _ => false
         | _ => true)

/-! ### Containers report fetch with retry (`send_containers_report.py`) -/

/-- Outcome of one attempt of `priority_query`: a response (status plus
decoded body), a `requests.exceptions.Timeout`, or any other exception. -/
inductive POutcome
  | resp (status : Nat) (body : PBody)
  | timeoutExn
  | otherExn
deriving DecidableEq

/-- The retry loop of `priority_query`, unrolled over the remaining attempt
budget; `i` is the index of the next attempt and `attempts` describes the
outcome of each attempt.  Falling out of the loop returns `[]`. -/
def priority_query_go (attempts : Nat → POutcome) (i : Nat) : Nat → List PDoc
  | 0 => []
  | remaining + 1 =>
      match attempts i with
      | POutcome.timeoutExn => priority_query_go attempts (i + 1) remaining
      | POutcome.otherExn => []
      | POutcome.resp status body =>
          if status = 200 then
            match body with
            | PBody.notJson => []
            | PBody.json none => []
            | PBody.json (some v) => v
          else if status = 502 ∨ status = 503 ∨ status = 504 then
            priority_query_go attempts (i + 1) remaining
          else []

/-- The fetcher `priority_query` with its retry ceiling (`retries=3` by default). -/
def priority_query (attempts : Nat → POutcome) (retries : Nat) : List PDoc :=
  priority_query_go attempts 0 retries

/-- A transient attempt outcome: a 502/503/504 status or a timeout. -/
def transientOutcome : POutcome → Prop
  | POutcome.resp status _ => status = 502 ∨ status = 503 ∨ status = 504
  | POutcome.timeoutExn => True
  | POutcome.otherExn => False

/-! ### WhatsApp delivery with retry (`send_whatsapp` and the main loop) -/

/-- Outcome of one send attempt: an HTTP status or a raised exception. -/
inductive SendOutcome
  | resp (status : Nat)
  | exn
deriving DecidableEq

/-- The retry loop of `send_whatsapp`: success on the first 200, otherwise
log, sleep, and retry until the budget is exhausted, then report failure. -/
def send_whatsapp_go (attempts : Nat → SendOutcome) (i : Nat) : Nat → Bool
  | 0 => false
  | remaining + 1 =>
      match attempts i with
      | SendOutcome.resp status =>
          if status = 200 then true else send_whatsapp_go attempts (i + 1) remaining
      | SendOutcome.exn => send_whatsapp_go attempts (i + 1) remaining

/-- The sender `send_whatsapp` with its retry ceiling (`retries=2` by default). -/
def send_whatsapp (attempts : Nat → SendOutcome) (retries : Nat) : Bool :=
  send_whatsapp_go attempts 0 retries

/-- One delivery target of the `RECIPIENTS` table. -/
structure Recipient where
  name : String
  phone : String
deriving DecidableEq

/-- The final loop of `main`: one `send_whatsapp` call per recipient, each
outcome recorded independently (`behavior r` describes the attempt outcomes
for recipient `r`). -/
def send_report_to_recipients (recipients : List Recipient)
    (behavior : Recipient → Nat → SendOutcome) : List Bool :=
  recipients.map (fun r => send_whatsapp (behavior r) 2)

/-! ### Supporting lemmas -/

theorem pyFoldl_add_eq {α : Type} {M : Type} [AddCommMonoid M] (f : α → M) :
    ∀ (l : List α) (a : M), l.foldl (fun acc x => acc + f x) a = a + (l.map f).sum
  | [], a => by simp
  | x :: t, a => by
      simp only [List.foldl_cons, List.map_cons, List.sum_cons]
      rw [pyFoldl_add_eq f t (a + f x), add_assoc]

theorem pySum_eq_sum (l : List PyFloat) : pySum l = l.sum := by
  have aux : ∀ (l : List PyFloat) (a : PyFloat), l.foldl (· + ·) a = a + l.sum := by
    intro l
    induction l with
    | nil => intro a; simp
    | cons x t ih =>
        intro a
        simp only [List.foldl_cons, List.sum_cons]
        rw [ih, add_assoc]
  simpa [pySum] using aux l 0

/-- All rows held by an insertion-ordered dict of groups, in place. -/
def joinGroups {β : Type} (g : List (String × List β)) : List β :=
  (g.map Prod.snd).flatten

@[simp] theorem joinGroups_nil {β : Type} : joinGroups ([] : List (String × List β)) = [] := rfl

@[simp] theorem joinGroups_cons {β : Type} (p : String × List β) (rest : List (String × List β)) :
    joinGroups (p :: rest) = p.2 ++ joinGroups rest := by
  simp [joinGroups]

theorem joinGroups_dictInsertRow {β : Type} (k : String) (d : β)
    (g : List (String × List β)) :
    (joinGroups (dictInsertRow g k d)).Perm (joinGroups g ++ [d]) := by
  induction g with
  | nil => simp [dictInsertRow]
  | cons p rest ih =>
      obtain ⟨k', rows⟩ := p
      by_cases hk : k' = k
      · simp only [dictInsertRow, if_pos hk, joinGroups_cons]
        rw [← Multiset.coe_eq_coe]
        simp only [← Multiset.coe_add]
        abel
      · simp only [dictInsertRow, if_neg hk, joinGroups_cons]
        rw [← Multiset.coe_eq_coe] at ih ⊢
        simp only [← Multiset.coe_add] at ih ⊢
        rw [ih]
        abel

theorem joinGroups_foldl_driver (l : List Delivery) :
    ∀ acc : List (String × List Delivery),
      (joinGroups (l.foldl (fun g d => dictInsertRow g d.driver d) acc)).Perm
        (joinGroups acc ++ l) := by
  induction l with
  | nil => intro acc; simp
  | cons d t ih =>
      intro acc
      simp only [List.foldl_cons]
      have h1 := ih (dictInsertRow acc d.driver d)
      have h2 := (joinGroups_dictInsertRow d.driver d acc).append_right t
      rw [show joinGroups acc ++ (d :: t) = (joinGroups acc ++ [d]) ++ t by simp]
      exact h1.trans h2

/-- All rows held by the nested driver → customer dict. -/
def joinNested (g : List (String × List (String × List Delivery))) : List Delivery :=
  (g.map (fun p => joinGroups p.2)).flatten

@[simp] theorem joinNested_nil : joinNested [] = [] := rfl

@[simp] theorem joinNested_cons (p : String × List (String × List Delivery))
    (rest : List (String × List (String × List Delivery))) :
    joinNested (p :: rest) = joinGroups p.2 ++ joinNested rest := by
  simp [joinNested]

theorem joinNested_dictInsertNested (dk ck : String) (d : Delivery)
    (g : List (String × List (String × List Delivery))) :
    (joinNested (dictInsertNested g dk ck d)).Perm (joinNested g ++ [d]) := by
  induction g with
  | nil => simp [dictInsertNested, dictInsertRow]
  | cons p rest ih =>
      obtain ⟨k, inner⟩ := p
      by_cases hk : k = dk
      · simp only [dictInsertNested, if_pos hk, joinNested_cons]
        have h2 := joinGroups_dictInsertRow ck d inner
        rw [← Multiset.coe_eq_coe] at h2 ⊢
        simp only [← Multiset.coe_add] at h2 ⊢
        rw [h2]
        abel
      · simp only [dictInsertNested, if_neg hk, joinNested_cons]
        rw [← Multiset.coe_eq_coe] at ih ⊢
        simp only [← Multiset.coe_add] at ih ⊢
        rw [ih]
        abel

theorem joinNested_foldl (l : List Delivery) :
    ∀ acc : List (String × List (String × List Delivery)),
      (joinNested (l.foldl (fun g d => dictInsertNested g d.driver d.customer d) acc)).Perm
        (joinNested acc ++ l) := by
  induction l with
  | nil => intro acc; simp
  | cons d t ih =>
      intro acc
      simp only [List.foldl_cons]
      have h1 := ih (dictInsertNested acc d.driver d.customer d)
      have h2 := (joinNested_dictInsertNested d.driver d.customer d acc).append_right t
      rw [show joinNested acc ++ (d :: t) = (joinNested acc ++ [d]) ++ t by simp]
      exact h1.trans h2

theorem flatten_map_perm {α β : Type} (l : List α) (f g : α → List β)
    (h : ∀ x, (f x).Perm (g x)) : ((l.map f).flatten).Perm ((l.map g).flatten) := by
  induction l with
  | nil => rfl
  | cons a t ih =>
      simp only [List.map_cons, List.flatten_cons]
      exact (h a).append ih

theorem joinGroups_group_by_driver (l : List Delivery) :
    (joinGroups (group_by_driver l)).Perm l := by
  have hsort :=
    (List.perm_insertionSort keyLE
      (l.foldl (fun g d => dictInsertRow g d.driver d) [])).map Prod.snd
  have h1 : (joinGroups (group_by_driver l)).Perm
      (joinGroups (l.foldl (fun g d => dictInsertRow g d.driver d) [])) := by
    simp only [group_by_driver, joinGroups]
    exact hsort.flatten
  have h2 := joinGroups_foldl_driver l []
  simpa using h1.trans h2

theorem joinNested_group_by_driver_and_customer (l : List Delivery) :
    (joinNested (group_by_driver_and_customer l)).Perm l := by
  have hinner : ∀ p : String × List (String × List Delivery),
      (joinGroups (List.insertionSort keyLE p.2)).Perm (joinGroups p.2) := by
    intro p
    simp only [joinGroups]
    exact ((List.perm_insertionSort keyLE p.2).map Prod.snd).flatten
  have h0 : (joinNested (group_by_driver_and_customer l)).Perm
      (joinNested (List.insertionSort keyLE
        (l.foldl (fun g d => dictInsertNested g d.driver d.customer d) []))) := by
    simp only [group_by_driver_and_customer, joinNested, List.map_map]
    exact flatten_map_perm _ _ _ (fun p => hinner p)
  have h1 : (joinNested (List.insertionSort keyLE
      (l.foldl (fun g d => dictInsertNested g d.driver d.customer d) []))).Perm
      (joinNested (l.foldl (fun g d => dictInsertNested g d.driver d.customer d) [])) := by
    simp only [joinNested]
    exact ((List.perm_insertionSort keyLE _).map _).flatten
  have h2 := joinNested_foldl l []
  simpa using (h0.trans h1).trans h2

theorem report_total_rows_eq (l : List Delivery) :
    report_total_rows l = l.length := by
  rw [report_total_rows, pyFoldl_add_eq (fun p : String × List Delivery => p.2.length)
    (group_by_driver l) 0, zero_add]
  have key : ((group_by_driver l).map (fun p => p.2.length)).sum
      = (joinGroups (group_by_driver l)).length := by
    simp only [joinGroups, List.length_flatten, List.map_map]
    rfl
  rw [key, (joinGroups_group_by_driver l).length_eq]

theorem report_total_pallets_eq (l : List Delivery) :
    report_total_pallets l = pySum (l.map (·.pallets)) := by
  rw [report_total_pallets, pyFoldl_add_eq
    (fun p : String × List Delivery => pySum (p.2.map (·.pallets))) (group_by_driver l) 0,
    zero_add, pySum_eq_sum]
  have key : ((group_by_driver l).map (fun p => pySum (p.2.map (·.pallets)))).sum
      = ((joinGroups (group_by_driver l)).map (·.pallets)).sum := by
    simp only [pySum_eq_sum, joinGroups, List.map_flatten, List.sum_flatten, List.map_map]
    rfl
  rw [key, (((joinGroups_group_by_driver l).map (·.pallets)).sum_eq : _)]

/-! ### Claim theorems -/

/-- Claim C3: the groupers partition the input rows — every row lands in
exactly one group (joining all member lists back gives a permutation of the
input, for both the flat and the nested grouper) — and consequently the
grand totals accumulated group-by-group in `format_whatsapp_message` equal
the direct totals over all input rows. -/
theorem grouping_is_partition (l : List Delivery) :
    (joinGroups (group_by_driver l)).Perm l ∧
    (joinNested (group_by_driver_and_customer l)).Perm l ∧
    report_total_rows l = l.length ∧
    report_total_pallets l = pySum (l.map (·.pallets)) :=
  ⟨joinGroups_group_by_driver l, joinNested_group_by_driver_and_customer l,
   report_total_rows_eq l, report_total_pallets_eq l⟩

/-- Claim C8: in the deliveries-report variant both groupers return their
mappings with keys in lexicographic order — `group_by_driver` sorts the
driver keys, `group_by_driver_and_customer` sorts the driver keys and, within
each driver, the customer keys. -/
theorem grouping_keys_sorted (l : List Delivery) :
    ((group_by_driver l).map Prod.fst).Sorted (· ≤ ·) ∧
    ((group_by_driver_and_customer l).map Prod.fst).Sorted (· ≤ ·) ∧
    ((group_by_driver_and_customer l).map (fun p => p.2.map Prod.fst)).Forall
      (List.Sorted (· ≤ ·)) := by
  refine ⟨?_, ?_, ?_⟩
  · have h := List.sorted_insertionSort keyLE
      (l.foldl (fun g d => dictInsertRow g d.driver d) [])
    rw [group_by_driver, List.Sorted, List.pairwise_map]
    exact h
  · have h := List.sorted_insertionSort keyLE
      (l.foldl (fun g d => dictInsertNested g d.driver d.customer d) [])
    rw [group_by_driver_and_customer, List.Sorted, List.map_map, List.pairwise_map]
    exact h
  · rw [List.forall_iff_forall_mem]
    intro x hx
    rw [List.mem_map] at hx
    obtain ⟨p, hp, rfl⟩ := hx
    rw [group_by_driver_and_customer, List.mem_map] at hp
    obtain ⟨q, _, rfl⟩ := hp
    have h := List.sorted_insertionSort keyLE q.2
    rw [List.Sorted, List.pairwise_map]
    exact h

/-- Claim C9: the normalize-then-group pipeline is a pure function of its
input — running `parse_delivery_item` over the same raw item sequence and
grouping the rows twice yields identical rows and identical groups (there is
no hidden mutable state in the embedding of either function). -/
theorem pipeline_deterministic (items : List MItem) :
    (items.map parse_delivery_item = items.map parse_delivery_item) ∧
    (group_by_driver (items.map parse_delivery_item) =
      group_by_driver (items.map parse_delivery_item)) :=
  ⟨rfl, rfl⟩

/-- Claim C4: a raw record whose quantity field is missing or non-numeric —
a Monday.com item whose pallets text is null, empty or unparsable, or an ERP
document whose lines all lack `TQUANT` — normalizes to quantity `0`; the
embedded normalizers are total functions, so no exception is raised. -/
theorem normalizer_quantity_defaults_to_zero :
    (∀ (item : MItem) (col : MCol),
       item.columns.lookup COLUMNS_pallets = some col →
       (col.text = none ∨ col.text = some "" ∨
         (∀ t, col.text = some t → pyFloat? t = none)) →
       (parse_delivery_item item).pallets = 0) ∧
    (∀ doc : PDoc,
       (∀ ln ∈ doc.TRANSORDER_D_SUBFORM.getD [], ln.TQUANT = none) →
       (process_documents [doc]).map PRow.QTY = [0]) := by
  constructor
  · intro item col hcol htext
    show parsePallets (item.columns.lookup COLUMNS_pallets) = 0
    rw [hcol]
    rcases htext with h | h | h
    · simp [parsePallets, h]
    · simp [parsePallets, h]
    · cases ht : col.text with
      | none => simp [parsePallets, ht]
      | some t =>
          by_cases he : t = ""
          · simp [parsePallets, ht, he]
          · simp [parsePallets, ht, he, h t ht]
  · intro doc h
    have hz : pySum ((doc.TRANSORDER_D_SUBFORM.getD []).map (fun l => l.TQUANT.getD 0)) = 0 := by
      rw [pySum_eq_sum]
      apply List.sum_eq_zero
      intro x hx
      rw [List.mem_map] at hx
      obtain ⟨ln, hln, rfl⟩ := hx
      rw [h ln hln]
      rfl
    simp only [process_documents, List.map_cons, List.map_nil]
    rw [hz]
    decide

/-- Claim C4 witness: an item with unparsable pallets text and a document
whose single line lacks `TQUANT` both normalize to quantity `0`. -/
theorem normalizer_quantity_defaults_to_zero_witness :
    (parse_delivery_item
      ⟨"1", "item", [(COLUMNS_pallets, ⟨some "abc", MValue.absent⟩)]⟩).pallets = 0 ∧
    (process_documents [⟨none, none, none, none, none, some [⟨none⟩]⟩]).map PRow.QTY = [0] :=
  ⟨normalizer_quantity_defaults_to_zero.1 _ ⟨some "abc", MValue.absent⟩ (by decide)
    (Or.inr (Or.inr (fun t ht => by cases ht; decide))),
   normalizer_quantity_defaults_to_zero.2 _ (by decide)⟩

/-- Whether the decoded value of a driver column carries a status index. -/
def hasDriverIndex : MValue → Bool
  | MValue.obj (some _) _ => true
  | _ => false

/-- Claim C5: for a status index with no `DRIVER_LABELS` entry the normalizer
falls back to the raw text of the column, or to the literal `"נהג <idx>"` when
that text is null or empty; when no index is available at all and the text is
empty it falls back to the literal unassigned label.  The embedded function
is total, so no exception is raised. -/
theorem normalizer_unknown_driver_index_fallback :
    (∀ (item : MItem) (col : MCol) (idx : Int) (d : Option String),
       item.columns.lookup COLUMNS_driver = some col →
       col.value = MValue.obj (some idx) d →
       driverLabel? idx = none →
       ((∀ t, col.text = some t → t ≠ "" → (parse_delivery_item item).driver = t) ∧
        ((col.text = none ∨ col.text = some "") →
          (parse_delivery_item item).driver = "נהג " ++ intToStr idx))) ∧
    (∀ item : MItem,
       hasDriverIndex (colValue (item.columns.lookup COLUMNS_driver)) = false →
       (colText (item.columns.lookup COLUMNS_driver) "" = none ∨
         colText (item.columns.lookup COLUMNS_driver) "" = some "") →
       (parse_delivery_item item).driver = unassignedLabel) := by
  constructor
  · intro item col idx d hcol hval hnone
    have hdrv : (parse_delivery_item item).driver =
        pyStrOr col.text ("נהג " ++ intToStr idx) := by
      show parseDriver (item.columns.lookup COLUMNS_driver) = _
      rw [hcol]
      simp only [parseDriver, colText, colValue, hval, hnone]
    constructor
    · intro t ht hne
      rw [hdrv, ht]
      simp [pyStrOr, hne]
    · intro h
      rcases h with h | h <;> rw [hdrv, h] <;> simp [pyStrOr]
  · intro item hidx htext
    show parseDriver (item.columns.lookup COLUMNS_driver) = unassignedLabel
    cases hc : item.columns.lookup COLUMNS_driver with
    | none => simp [parseDriver, colText, colValue, pyStrOr]
    | some col =>
        rw [hc] at hidx htext
        simp only [colValue] at hidx
        simp only [colText] at htext
        cases hv : col.value with
        | absent =>
            simp only [parseDriver, colText, colValue, hv]
            rcases htext with h | h <;> simp [pyStrOr, h]
        | emptyObj =>
            simp only [parseDriver, colText, colValue, hv]
            rcases htext with h | h <;> simp [pyStrOr, h]
        | malformed =>
            simp only [parseDriver, colText, colValue, hv]
            rcases htext with h | h <;> simp [pyStrOr, h]
        | obj oi od =>
            cases oi with
            | none =>
                simp only [parseDriver, colText, colValue, hv]
                rcases htext with h | h <;> simp [pyStrOr, h]
            | some i =>
                rw [hv] at hidx
                simp [hasDriverIndex] at hidx

/-- Claim C5 witness: index `5` has no `DRIVER_LABELS` entry, and an item
with empty driver text and index `5` gets the literal `"נהג 5"` label, while
an item with a null driver value and no text gets the unassigned label. -/
theorem normalizer_unknown_driver_index_fallback_witness :
    (parse_delivery_item
      ⟨"1", "n", [(COLUMNS_driver, ⟨some "", MValue.obj (some 5) none⟩)]⟩).driver =
        "נהג " ++ intToStr 5 ∧
    (parse_delivery_item ⟨"2", "n", [(COLUMNS_driver, ⟨none, MValue.absent⟩)]⟩).driver =
      unassignedLabel :=
  ⟨(normalizer_unknown_driver_index_fallback.1 _ ⟨some "", MValue.obj (some 5) none⟩ 5 none
      (by decide) rfl (by decide)).2 (Or.inr rfl),
   normalizer_unknown_driver_index_fallback.2 _ (by decide) (Or.inl (by decide))⟩

theorem priority_go_transient (attempts : Nat → POutcome) (i rem : Nat)
    (h : transientOutcome (attempts i)) :
    priority_query_go attempts i (rem + 1) = priority_query_go attempts (i + 1) rem := by
  cases ha : attempts i with
  | resp s b =>
      rw [ha] at h
      have hs : s = 502 ∨ s = 503 ∨ s = 504 := h
      have h200 : ¬ s = 200 := by rcases hs with h' | h' | h' <;> omega
      simp only [priority_query_go, ha, if_neg h200, if_pos hs]
  | timeoutExn => simp only [priority_query_go, ha]
  | otherExn => rw [ha] at h; cases h

theorem priority_go_success (attempts : Nat → POutcome) (i rem : Nat) (v : List PDoc)
    (h : attempts i = POutcome.resp 200 (PBody.json (some v))) :
    priority_query_go attempts i (rem + 1) = v := by
  simp [priority_query_go, h]

/-- Claim C6: when the first two `priority_query` attempts are transient
failures (502/503/504 or a timeout) and the third attempt returns HTTP 200
with a `value` array, the caller receives that array, not an empty result —
the retry ceiling of 3 attempts covers this schedule. -/
theorem priority_query_retry_success (attempts : Nat → POutcome) (v : List PDoc)
    (h0 : transientOutcome (attempts 0)) (h1 : transientOutcome (attempts 1))
    (h2 : attempts 2 = POutcome.resp 200 (PBody.json (some v))) :
    priority_query attempts 3 = v := by
  show priority_query_go attempts 0 (2 + 1) = v
  rw [priority_go_transient attempts 0 2 h0]
  show priority_query_go attempts 1 (1 + 1) = v
  rw [priority_go_transient attempts 1 1 h1]
  show priority_query_go attempts 2 (0 + 1) = v
  exact priority_go_success attempts 2 0 v h2

/-- Claim C6 witness: 503 then timeout then a 200 with one record. -/
theorem priority_query_retry_success_witness :
    priority_query
      (fun i =>
        if i = 0 then POutcome.resp 503 PBody.notJson
        else if i = 1 then POutcome.timeoutExn
        else POutcome.resp 200 (PBody.json (some [⟨some "d1", none, none, none, none, none⟩])))
      3 = [⟨some "d1", none, none, none, none, none⟩] :=
  priority_query_retry_success _ _ (by simp [transientOutcome]) (by simp [transientOutcome])
    (by simp)

/-- Claim C7: the delivery loop sends to every target in order, produces one
boolean outcome per target, each outcome depending only on the attempt outcomes of that target (so a failure at one target cannot abort the rest), and in the
two-recipient scenario where the first target always gets a non-200 and the
second gets a 200 the reported outcomes are `[false, true]`. -/
theorem delivery_per_target_outcomes (recipients : List Recipient)
    (behavior : Recipient → Nat → SendOutcome) :
    (send_report_to_recipients recipients behavior).length = recipients.length ∧
    (∀ i : Nat, (send_report_to_recipients recipients behavior)[i]? =
      (recipients[i]?).map (fun r => send_whatsapp (behavior r) 2)) ∧
    (∀ r₁ r₂ : Recipient,
      (∀ j, behavior r₁ j = SendOutcome.resp 500) →
      (∀ j, behavior r₂ j = SendOutcome.resp 200) →
      send_report_to_recipients [r₁, r₂] behavior = [false, true]) := by
  refine ⟨by simp [send_report_to_recipients], ?_, ?_⟩
  · intro i
    exact List.getElem?_map _ recipients i
  · intro r₁ r₂ hfail hok
    have e1 : send_whatsapp (behavior r₁) 2 = false := by
      show send_whatsapp_go (behavior r₁) 0 (1 + 1) = false
      simp only [send_whatsapp_go, hfail 0, hfail 1]
      norm_num
    have e2 : send_whatsapp (behavior r₂) 2 = true := by
      show send_whatsapp_go (behavior r₂) 0 (1 + 1) = true
      simp only [send_whatsapp_go, hok 0]
      norm_num
    simp [send_report_to_recipients, e1, e2]

/-- Claim C7 witness: two concrete recipients, the first failing with 500 on
every attempt and the second succeeding immediately. -/
theorem delivery_per_target_outcomes_witness :
    send_report_to_recipients [⟨"a", "111"⟩, ⟨"b", "222"⟩]
      (fun r _ => if r.phone = "111" then SendOutcome.resp 500 else SendOutcome.resp 200) =
      [false, true] :=
  (delivery_per_target_outcomes [⟨"a", "111"⟩, ⟨"b", "222"⟩] _).2.2 ⟨"a", "111"⟩ ⟨"b", "222"⟩
    (fun j => by simp) (fun j => by simp)

theorem monday_fallback_failed (target_date : String) (fb : MondayOutcome)
    (h : mondayFetchFailed fb = true) :
    query_monday_deliveries_fallback target_date fb = [] := by
  cases fb with
  | reqError => rfl
  | resp s b =>
      simp only [mondayFetchFailed, Bool.or_eq_true, decide_eq_true_eq] at h
      cases b with
      | notJson => simp [query_monday_deliveries_fallback]
      | withErrors => simp [query_monday_deliveries_fallback]
      | malformedShape => simp [query_monday_deliveries_fallback]
      | items its =>
          rcases h with h | h
          · simp [query_monday_deliveries_fallback, if_pos h]
          · cases h

/-- Claim C1, amended: `query_monday_deliveries` converts every failure
(request exception, error status, undecodable body, reported errors, broken
shape) into the empty list, falling back to the secondary query first; but
`query_priority` of `daily_report.py` has no handler and propagates every
failure to its caller as an exception. -/
theorem fetch_failure_behavior :
    (∀ (tokenSet : Bool) (target_date : String) (o fb : MondayOutcome),
       mondayFetchFailed o = true → mondayFetchFailed fb = true →
       query_monday_deliveries tokenSet target_date o fb = []) ∧
    (∀ o : FetchOutcome, fetchFailed o = true →
       ∃ e, query_priority o = Except.error e) := by
  constructor
  · intro tokenSet target_date o fb ho hfb
    cases tokenSet with
    | false => rfl
    | true =>
        cases o with
        | reqError =>
            simp only [query_monday_deliveries, Bool.not_true, Bool.false_eq_true,
              if_false]
            exact monday_fallback_failed target_date fb hfb
        | resp s b =>
            simp only [mondayFetchFailed, Bool.or_eq_true, decide_eq_true_eq] at ho
            simp only [query_monday_deliveries, Bool.not_true, Bool.false_eq_true, if_false]
            by_cases hs : 400 ≤ s
            · rw [if_pos hs]
              exact monday_fallback_failed target_date fb hfb
            · rw [if_neg hs]
              cases b with
              | notJson => exact monday_fallback_failed target_date fb hfb
              | withErrors => exact monday_fallback_failed target_date fb hfb
              | malformedShape => rfl
              | items its =>
                  rcases ho with h | h
                  · exact absurd h hs
                  · cases h
  · intro o h
    cases o with
    | reqError => exact ⟨PyExn.requestExn, rfl⟩
    | resp s b =>
        simp only [fetchFailed, Bool.or_eq_true, decide_eq_true_eq] at h
        by_cases hs : 400 ≤ s
        · refine ⟨PyExn.httpStatusExn s, ?_⟩
          simp [query_priority, raise_for_status, if_pos hs]
        · refine ⟨PyExn.jsonExn, ?_⟩
          rcases h with h | h
          · exact absurd h hs
          · cases b with
            | notJson => simp [query_priority, raise_for_status, if_neg hs]
            | json v => cases h

/-- Claim C1 counterexample: on an HTTP 503 response `query_priority` does
not return an empty record list — `raise_for_status` raises and the
exception propagates to the caller. -/
theorem query_priority_propagates_counterexample :
    query_priority (FetchOutcome.resp 503 (PBody.json none)) =
      Except.error (PyExn.httpStatusExn 503) := by
  rfl

/-- Claim C1 witness: a failed Monday.com fetch whose fallback also fails
yields `[]`, and a raised request exception in `query_priority` propagates. -/
theorem fetch_failure_behavior_witness :
    query_monday_deliveries true "2025-01-01" MondayOutcome.reqError
      (MondayOutcome.resp 500 MondayBody.notJson) = [] ∧
    ∃ e, query_priority FetchOutcome.reqError = Except.error e :=
  ⟨fetch_failure_behavior.1 true "2025-01-01" MondayOutcome.reqError
    (MondayOutcome.resp 500 MondayBody.notJson) (by decide) (by decide),
   fetch_failure_behavior.2 FetchOutcome.reqError (by decide)⟩

/-- All emails across the five buckets. -/
def catJoin (c : Categories) : List Email :=
  c.urgent ++ c.finance ++ c.orders ++ c.internal ++ c.other

theorem catJoin_addToCategory (c : Categories) (e : Email) :
    (catJoin (addToCategory c e)).Perm (catJoin c ++ [e]) := by
  cases h : categoryOf e <;>
    simp only [addToCategory, h, catJoin] <;>
    (rw [← Multiset.coe_eq_coe]; simp only [← Multiset.coe_add]; abel)

theorem catJoin_foldl (l : List Email) :
    ∀ acc : Categories, (catJoin (l.foldl addToCategory acc)).Perm (catJoin acc ++ l) := by
  induction l with
  | nil => intro acc; simp
  | cons x t ih =>
      intro acc
      simp only [List.foldl_cons]
      have h1 := ih (addToCategory acc x)
      have h2 := (catJoin_addToCategory acc x).append_right t
      rw [show catJoin acc ++ (x :: t) = (catJoin acc ++ [x]) ++ t by simp]
      exact h1.trans h2

theorem urgent_subset_addToCategory (c : Categories) (e : Email) :
    c.urgent ⊆ (addToCategory c e).urgent := by
  cases h : categoryOf e <;> simp [addToCategory, h]

theorem urgent_subset_foldl (l : List Email) :
    ∀ acc : Categories, acc.urgent ⊆ (l.foldl addToCategory acc).urgent := by
  induction l with
  | nil => intro acc; exact fun x hx => hx
  | cons x t ih =>
      intro acc
      simp only [List.foldl_cons]
      exact fun y hy => ih (addToCategory acc x) (urgent_subset_addToCategory acc x hy)

theorem mem_urgent_foldl (l : List Email) :
    ∀ (acc : Categories) (e : Email), e ∈ l → categoryOf e = Category.urgent →
      e ∈ (l.foldl addToCategory acc).urgent := by
  induction l with
  | nil => intro acc e he; cases he
  | cons x t ih =>
      intro acc e he hcat
      rw [List.mem_cons] at he
      rcases he with rfl | he
      · simp only [List.foldl_cons]
        apply urgent_subset_foldl
        simp [addToCategory, hcat]
      · simp only [List.foldl_cons]
        exact ih _ e he hcat

/-- Claim C10: `categorize_emails` places each email in exactly one of the
five buckets (joining the buckets back yields a permutation of the input),
and urgency takes precedence — any email with high importance or an urgent
keyword lands in the urgent bucket, regardless of any finance/order keyword
or internal sender it also matches. -/
theorem categorize_emails_partition (emails : List Email) :
    (catJoin (categorize_emails emails)).Perm emails ∧
    (∀ e, isUrgentEmail e = true → categoryOf e = Category.urgent) ∧
    (∀ e ∈ emails, isUrgentEmail e = true → e ∈ (categorize_emails emails).urgent) := by
  refine ⟨?_, ?_, ?_⟩
  · have h := catJoin_foldl emails ⟨[], [], [], [], []⟩
    simpa [catJoin] using h
  · intro e he
    simp [categoryOf, he]
  · intro e he hu
    exact mem_urgent_foldl emails _ e he (by simp [categoryOf, hu])

/-- Claim C10 witness: an email matching both an urgent keyword and a
finance keyword, sent from an internal address, lands in the urgent bucket,
and the join of the buckets is a permutation of the singleton input. -/
theorem categorize_emails_partition_witness :
    (⟨"URGENT invoice", "", "x@gaya-foods.com", "Boss", "normal"⟩ : Email) ∈
      (categorize_emails
        [⟨"URGENT invoice", "", "x@gaya-foods.com", "Boss", "normal"⟩]).urgent ∧
    (catJoin (categorize_emails
        [⟨"URGENT invoice", "", "x@gaya-foods.com", "Boss", "normal"⟩])).Perm
      [⟨"URGENT invoice", "", "x@gaya-foods.com", "Boss", "normal"⟩] :=
  ⟨(categorize_emails_partition _).2.2 _ (by decide) (by decide),
   (categorize_emails_partition _).1⟩

theorem pyTakeStr_length_le (n : Nat) (s : String) : (pyTakeStr n s).length ≤ n := by
  show (s.data.take n).length ≤ n
  rw [List.length_take]
  exact Nat.min_le_left _ _

theorem showCustomers_foldl_invariant (items : List Delivery) :
    ∀ (its : List Delivery) (acc : List String × List String),
      acc.1.length = acc.2.length → acc.2.length ≤ 5 →
      ((its.foldl (showCustomersStep items) acc).1.length =
        (its.foldl (showCustomersStep items) acc).2.length ∧
       (its.foldl (showCustomersStep items) acc).2.length ≤ 5) := by
  intro its
  induction its with
  | nil => intro acc h1 h2; exact ⟨h1, h2⟩
  | cons x t ih =>
      intro acc h1 h2
      simp only [List.foldl_cons]
      by_cases hc : (x.customer ≠ "" ∧ x.customer ∉ acc.2 ∧ acc.2.length < 5)
      · have hl := hc.2.2
        apply ih
        · simp [showCustomersStep, if_pos hc, h1]
        · simp only [showCustomersStep, if_pos hc]
          simp only [List.length_append, List.length_cons, List.length_nil]
          omega
      · apply ih
        · simp [showCustomersStep, if_neg hc, h1]
        · simp [showCustomersStep, if_neg hc, h2]

/-- Claim C2, amended: the fallback digest `create_fallback_summary` is
sliced to at most 500 characters, and `format_whatsapp_message` elides
customers beyond 5 per driver group; but the total length of
`format_whatsapp_message` is unbounded (see the counterexample). -/
theorem digest_length_bounds :
    (∀ (today : String) (emails : List Email) (categories : Categories),
       (create_fallback_summary today emails categories).length ≤ 500) ∧
    (∀ items : List Delivery, (showCustomers items).length ≤ 5) := by
  constructor
  · intro today emails categories
    exact pyTakeStr_length_le 500 _
  · intro items
    have h := showCustomers_foldl_invariant items items ([], []) rfl (by simp)
    show ((items.foldl (showCustomersStep items) ([], [])).1).length ≤ 5
    rw [h.1]
    exact h.2

set_option maxRecDepth 100000 in
/-- Claim C2 counterexample: `format_whatsapp_message` has no 500-character
cap — a single delivery whose customer name is 600 characters long already
produces a digest longer than 500 characters. -/
theorem format_whatsapp_message_exceeds_cap :
    500 < (format_whatsapp_message
      [{ id := "1", name := "x", driver := "a",
         customer := ⟨List.replicate 600 'a'⟩, city := "", sku := "",
         description := "", pallets := ⟨0, 1⟩, ordNo := "" }] "2025-01-01").length := by
  decide

end Gaya
